import Mathlib

/-!
Shallow embedding of the three Playwright verification scripts under
`jules-scratch/verification/` — `verify_simulation.py`,
`verify_boundary_conditions.py` and `verify_clusters.py` — and proofs about
the behavior the specification ascribes to them.

Each script is embedded as a function from the observable behavior of the
target document (a `Page`) to the ordered trace of externally visible
effects the script performs (`List Effect`) together with the exception it
propagates to the interpreter, if any (`Option StepError`).  The target
document `index.html` is not part of the repository slice, so runs are
parametrised over the `Page` interface; where a claim needs the page's
behavior, it is modelled from the specification's target-page contract and
marked as such in the doc comment.
-/

/-- A diagnostic event emitted by the page during a session: a console
message (with its type/level and its text) or an uncaught page error,
already rendered to a string.  These are the two event streams the
simulation script subscribes to with `page.on("console", ...)` and
`page.on("pageerror", ...)`. -/
inductive PageEvent where
  | console (type text : String)
  | pageerror (err : String)
  deriving DecidableEq

/-- The formatting applied by the console handler registered at
`verify_simulation.py` line 16: a console message becomes `"[level] text"`. -/
def consoleFormat (type text : String) : String :=
  "[" ++ type ++ "] " ++ text

/-- The state of the two accumulator lists `console_messages` and
`page_errors` of `verify_simulation.py` lines 14-15. -/
structure LogState where
  console_messages : List String
  page_errors : List String
  deriving DecidableEq

/-- Dispatch of one page event to the handler registered for it
(`verify_simulation.py` lines 16-17): each handler appends exactly one
entry to its own list. -/
def handleEvent (st : LogState) : PageEvent → LogState
  | PageEvent.console t x =>
      ⟨st.console_messages ++ [consoleFormat t x], st.page_errors⟩
  | PageEvent.pageerror e =>
      ⟨st.console_messages, st.page_errors ++ [e]⟩

/-- The accumulated logs after the page has emitted `events`, in order:
the event loop delivers each event to its handler, starting from two empty
lists. -/
def collectLogs (events : List PageEvent) : LogState :=
  events.foldl handleEvent ⟨[], []⟩

/-- The console-log entry an event contributes, if any. -/
def consoleEntry? : PageEvent → Option String
  | PageEvent.console t x => some (consoleFormat t x)
  | PageEvent.pageerror _ => none

/-- The error-log entry an event contributes, if any. -/
def errorEntry? : PageEvent → Option String
  | PageEvent.console _ _ => none
  | PageEvent.pageerror e => some e

/-- The exceptions a Playwright call made by these scripts can raise:
navigation failure, a locator that never resolves within its timeout, an
`expect` assertion whose condition never became true within its timeout
(carrying the expected and the observed value), and a failing screenshot
write. -/
inductive StepError where
  | navigationError (target : String)
  | elementNotFound (selector : String)
  | assertionError (expected observed : String)
  | screenshotError (path : String)
  deriving DecidableEq

/-- The message text of an exception, as interpolated into a diagnostic
print. -/
def StepError.message : StepError → String
  | StepError.navigationError t => "navigation to " ++ t ++ " failed"
  | StepError.elementNotFound s => "timeout waiting for locator " ++ s
  | StepError.assertionError exp obs =>
      "AssertionError: expected " ++ exp ++ " but observed " ++ obs
  | StepError.screenshotError p => "writing screenshot " ++ p ++ " failed"

/-- One externally visible effect of a script run, in execution order.
The `fullPage` field of `screenshot` records the `full_page` option of
`page.screenshot`, which defaults to `false` when the call does not pass
it (none of the three scripts passes it). -/
inductive Effect where
  | registerConsoleHandler
  | registerPageErrorHandler
  | goto (target : String)
  | assertCheck (description : String)
  | click (selector : String)
  | scrollIntoView (selector : String)
  | selectOption (selector value : String)
  | waitTimeout (ms : Nat)
  | screenshot (path : String) (bytes : List Nat) (fullPage : Bool)
  | print (line : String)
  | closeBrowser
  deriving DecidableEq

/-- Bounded waiting: a Playwright `expect` assertion re-checks its
condition until it holds or the timeout elapses.  `pollUntil p n = true`
iff the condition holds at some tick `t ≤ n`. -/
def pollUntil (p : Nat → Bool) : Nat → Bool
  | 0 => p 0
  | n + 1 => p (n + 1) || pollUntil p n

theorem pollUntil_eq_true_iff (p : Nat → Bool) (n : Nat) :
    pollUntil p n = true ↔ ∃ t, t ≤ n ∧ p t = true := by
  induction n with
  | zero =>
    constructor
    · intro h
      exact ⟨0, Nat.le_refl 0, h⟩
    · rintro ⟨t, ht, hp⟩
      have h0 : t = 0 := Nat.le_zero.mp ht
      subst h0
      exact hp
  | succ n ih =>
    simp only [pollUntil, Bool.or_eq_true, ih]
    constructor
    · rintro (h | ⟨t, ht, hp⟩)
      · exact ⟨n + 1, Nat.le_refl _, h⟩
      · exact ⟨t, Nat.le_succ_of_le ht, hp⟩
    · rintro ⟨t, ht, hp⟩
      rcases Nat.eq_or_lt_of_le ht with h | hlt
      · subst h
        exact Or.inl hp
      · exact Or.inr ⟨t, Nat.lt_succ_iff.mp hlt, hp⟩

theorem pollUntil_eq_false_iff (p : Nat → Bool) (n : Nat) :
    pollUntil p n = false ↔ ∀ t, t ≤ n → p t = false := by
  constructor
  · intro h t ht
    cases hpt : p t with
    | false => rfl
    | true =>
      have htrue : pollUntil p n = true :=
        (pollUntil_eq_true_iff p n).mpr ⟨t, ht, hpt⟩
      rw [h] at htrue
      exact absurd htrue Bool.false_ne_true
  · intro h
    cases hres : pollUntil p n with
    | false => rfl
    | true =>
      obtain ⟨t, ht, hp⟩ := (pollUntil_eq_true_iff p n).mp hres
      rw [h t ht] at hp
      exact absurd hp Bool.false_ne_true

/-- The Playwright default timeout for `expect` assertions, in
milliseconds: used by `to_have_value` in `verify_boundary_conditions.py`
line 23, which passes no explicit timeout. -/
def defaultAssertTimeout : Nat := 5000

/-- `expect(locator).to_have_value(expected)`: polls the control's value
until it equals `expected` or the timeout elapses; on timeout it raises an
`AssertionError` carrying the expected value and the last observed value. -/
def toHaveValue (observed : Nat → String) (expected : String)
    (timeout : Nat) : Except StepError Unit :=
  if pollUntil (fun t => observed t == expected) timeout = true then
    Except.ok ()
  else
    Except.error (StepError.assertionError expected (observed timeout))

/-- `expect(locator).not_to_have_text(unexpected)`: polls the element's
text until it differs from `unexpected` or the timeout elapses; on timeout
it raises an `AssertionError` carrying the expectation and the observed
(unchanged) value. -/
def notToHaveText (observed : Nat → String) (unexpected : String)
    (timeout : Nat) : Except StepError Unit :=
  if pollUntil (fun t => observed t != unexpected) timeout = true then
    Except.ok ()
  else
    Except.error
      (StepError.assertionError ("text other than " ++ unexpected)
        (observed timeout))

theorem toHaveValue_ok (observed : Nat → String) (expected : String)
    (timeout : Nat) (h : ∃ t, t ≤ timeout ∧ observed t = expected) :
    toHaveValue observed expected timeout = Except.ok () := by
  obtain ⟨t, ht, he⟩ := h
  unfold toHaveValue
  rw [if_pos]
  exact (pollUntil_eq_true_iff _ _).mpr ⟨t, ht, by simp [he]⟩

theorem toHaveValue_error (observed : Nat → String) (expected : String)
    (timeout : Nat) (h : ∀ t, t ≤ timeout → observed t ≠ expected) :
    toHaveValue observed expected timeout =
      Except.error (StepError.assertionError expected (observed timeout)) := by
  unfold toHaveValue
  rw [if_neg]
  intro habs
  obtain ⟨t, ht, hp⟩ := (pollUntil_eq_true_iff _ _).mp habs
  exact h t ht (by simpa using hp)

theorem notToHaveText_ok (observed : Nat → String) (unexpected : String)
    (timeout : Nat) (h : ∃ t, t ≤ timeout ∧ observed t ≠ unexpected) :
    notToHaveText observed unexpected timeout = Except.ok () := by
  obtain ⟨t, ht, he⟩ := h
  unfold notToHaveText
  rw [if_pos]
  exact (pollUntil_eq_true_iff _ _).mpr ⟨t, ht, by simp [he]⟩

theorem notToHaveText_error (observed : Nat → String) (unexpected : String)
    (timeout : Nat) (h : ∀ t, t ≤ timeout → observed t = unexpected) :
    notToHaveText observed unexpected timeout =
      Except.error
        (StepError.assertionError ("text other than " ++ unexpected)
          (observed timeout)) := by
  unfold notToHaveText
  rw [if_neg]
  intro habs
  obtain ⟨t, ht, hp⟩ := (pollUntil_eq_true_iff _ _).mp habs
  rw [h t ht] at hp
  simp at hp

/-- The observable behavior of the target document, as seen through the
Playwright calls the scripts make.  `index.html` is not part of the
repository slice, so each run is parametrised by this interface:
`gotoOk` — whether navigation to the file succeeds; `headingVisible` —
whether the heading with accessible name "Line Bridge Simulator" becomes
visible in time; `resolves sel` — whether the locator `sel` attaches and
becomes actionable within its timeout; `boundaryOptions` — the option
values of the `#boundary-condition` select; `boundaryValue t` — the
select's observed value at poll tick `t` after `select_option`;
`lineCount t` — the `#line-count` text at poll tick `t` after the start
click; `events` — the diagnostic events the page emits during the
session; `shotBytes` — the PNG bytes the engine produces for a
screenshot; `shotOk` — whether the screenshot write succeeds. -/
structure Page where
  gotoOk : Bool
  headingVisible : Bool
  resolves : String → Bool
  boundaryOptions : List String
  boundaryValue : Nat → String
  lineCount : Nat → String
  events : List PageEvent
  shotBytes : List Nat
  shotOk : Bool

/-- The navigation target of all three scripts: the local `index.html`,
resolved to an absolute `file://` URL by `os.path.abspath`. -/
def indexTarget : String := "index.html"

namespace VerifySimulation

/-- The fixed screenshot path of `verify_simulation.py` line 38. -/
def screenshot_path : String := "jules-scratch/verification/simulation-running.png"

/-- Description recorded for the `expect(...).to_be_visible()` check on
the heading (line 27). -/
def headingCheck : String :=
  "heading Line Bridge Simulator to_be_visible"

/-- Description recorded for the `expect(...).not_to_have_text("0")`
check on `#line-count` (line 35). -/
def lineCountCheck : String := "#line-count not_to_have_text 0"

/-- Steps 1-5 inside the `try:` block of `run_verification`
(`verify_simulation.py` lines 19-40): navigate, assert the heading
visible, click `#start-button`, assert `#line-count` leaves `"0"` within
5000 ms, screenshot, print the confirmation line.  Returns the trace of
the calls executed and the exception raised, if any; an exception aborts
the block, so no later call appears in the trace. -/
def tryBlock (page : Page) : List Effect × Option StepError :=
  if page.gotoOk = false then
    ([Effect.goto indexTarget], some (StepError.navigationError indexTarget))
  else if page.headingVisible = false then
    ([Effect.goto indexTarget, Effect.assertCheck headingCheck],
      some (StepError.assertionError "heading Line Bridge Simulator visible"
        "not visible"))
  else if page.resolves "#start-button" = false then
    ([Effect.goto indexTarget, Effect.assertCheck headingCheck],
      some (StepError.elementNotFound "#start-button"))
  else
    match notToHaveText page.lineCount "0" 5000 with
    | Except.error e =>
        ([Effect.goto indexTarget, Effect.assertCheck headingCheck,
          Effect.click "#start-button", Effect.assertCheck lineCountCheck],
          some e)
    | Except.ok _ =>
        if page.shotOk = false then
          ([Effect.goto indexTarget, Effect.assertCheck headingCheck,
            Effect.click "#start-button", Effect.assertCheck lineCountCheck],
            some (StepError.screenshotError screenshot_path))
        else
          ([Effect.goto indexTarget, Effect.assertCheck headingCheck,
            Effect.click "#start-button", Effect.assertCheck lineCountCheck,
            Effect.screenshot screenshot_path page.shotBytes false,
            Effect.print ("Screenshot saved to " ++ screenshot_path)],
            none)

/-- The `try`/`except` of `verify_simulation.py` lines 19-43: the body's
trace, followed — when the body raised — by the `except Exception`
branch's diagnostic print of the exception's message. -/
def exceptionHandled (page : Page) : List Effect :=
  match tryBlock page with
  | (trace, none) => trace
  | (trace, some e) =>
      trace ++
        [Effect.print
          ("\nAn error occurred during Playwright execution: " ++ e.message)]

/-- The prints of the first half of the `finally:` block
(`verify_simulation.py` lines 47-52): the console-log section header,
then either every captured console entry or the explicit marker that none
were captured. -/
def consoleSection (cs : List String) : List Effect :=
  Effect.print "\n--- Browser Console Logs ---" ::
    (if cs.isEmpty then [Effect.print "No console messages were captured."]
     else cs.map Effect.print)

/-- The prints of the second half of the `finally:` block
(`verify_simulation.py` lines 55-60): the page-error section header, then
either every captured error entry or the explicit marker. -/
def errorSection (es : List String) : List Effect :=
  Effect.print "\n--- Browser Page Errors ---" ::
    (if es.isEmpty then [Effect.print "No page errors were captured."]
     else es.map Effect.print)

/-- `run_verification` of `verify_simulation.py` (lines 4-62): register
the two diagnostic handlers, run the `try` block with its `except` print,
then the unconditional `finally:` block — the two log sections followed by
`browser.close()`.  The `except Exception` clause catches every step
error, so no exception propagates out of the function (the second
component is always `none`) and the interpreter exits 0. -/
def run_verification (page : Page) : List Effect × Option StepError :=
  ([Effect.registerConsoleHandler, Effect.registerPageErrorHandler] ++
      exceptionHandled page ++
      consoleSection (collectLogs page.events).console_messages ++
      errorSection (collectLogs page.events).page_errors ++
      [Effect.closeBrowser],
    none)

end VerifySimulation

namespace VerifyBoundaryConditions

/-- The fixed screenshot path of `verify_boundary_conditions.py` line 26. -/
def screenshot_path : String := "jules-scratch/verification/verification.png"

/-- Description recorded for the `expect(...).to_have_value(...)` check
(line 23). -/
def valueCheck : String := "#boundary-condition to_have_value top-to-bottom"

/-- `run_verification` of `verify_boundary_conditions.py` (lines 4-30):
navigate, scroll `#boundary-condition` into view, select the
`top-to-bottom` option, assert the select's value, screenshot, close the
browser, print the confirmation line.  The script has no
`try`/`except`/`finally`: the first exception aborts the run and skips
every later statement, including `browser.close()`; the second component
is the exception that propagates to the interpreter. -/
def run_verification (page : Page) : List Effect × Option StepError :=
  if page.gotoOk = false then
    ([Effect.goto indexTarget], some (StepError.navigationError indexTarget))
  else if page.resolves "#boundary-condition" = false then
    ([Effect.goto indexTarget],
      some (StepError.elementNotFound "#boundary-condition"))
  else if "top-to-bottom" ∈ page.boundaryOptions then
    match toHaveValue page.boundaryValue "top-to-bottom" defaultAssertTimeout with
    | Except.error e =>
        ([Effect.goto indexTarget, Effect.scrollIntoView "#boundary-condition",
          Effect.selectOption "#boundary-condition" "top-to-bottom",
          Effect.assertCheck valueCheck],
          some e)
    | Except.ok _ =>
        if page.shotOk = false then
          ([Effect.goto indexTarget, Effect.scrollIntoView "#boundary-condition",
            Effect.selectOption "#boundary-condition" "top-to-bottom",
            Effect.assertCheck valueCheck],
            some (StepError.screenshotError screenshot_path))
        else
          ([Effect.goto indexTarget, Effect.scrollIntoView "#boundary-condition",
            Effect.selectOption "#boundary-condition" "top-to-bottom",
            Effect.assertCheck valueCheck,
            Effect.screenshot screenshot_path page.shotBytes false,
            Effect.closeBrowser,
            Effect.print ("Screenshot saved to " ++ screenshot_path)],
            none)
  else
    ([Effect.goto indexTarget, Effect.scrollIntoView "#boundary-condition"],
      some (StepError.elementNotFound "option top-to-bottom"))

end VerifyBoundaryConditions

namespace VerifyClusters

/-- The fixed screenshot path of `verify_clusters.py` line 26. -/
def screenshot_path : String := "jules-scratch/verification/verification.png"

/-- The selectors passed to `page.locator` in `verify_clusters.py`
(lines 15 and 22): the scenario constructs exactly these two locators. -/
def locator_selectors : List String := ["#start-button", "#pause-button"]

/-- `run_verification` of `verify_clusters.py` (lines 4-30): navigate,
click `#start-button`, wait 3000 ms, click `#pause-button`, screenshot,
close the browser, print the confirmation line.  No `expect` assertion is
made and no page state is read.  The script has no `try`/`except`: the
first exception aborts the run, skipping every later statement including
`browser.close()`; the second component is the exception that propagates
to the interpreter. -/
def run_verification (page : Page) : List Effect × Option StepError :=
  if page.gotoOk = false then
    ([Effect.goto indexTarget], some (StepError.navigationError indexTarget))
  else if page.resolves "#start-button" = false then
    ([Effect.goto indexTarget],
      some (StepError.elementNotFound "#start-button"))
  else if page.resolves "#pause-button" = false then
    ([Effect.goto indexTarget, Effect.click "#start-button",
      Effect.waitTimeout 3000],
      some (StepError.elementNotFound "#pause-button"))
  else if page.shotOk = false then
    ([Effect.goto indexTarget, Effect.click "#start-button",
      Effect.waitTimeout 3000, Effect.click "#pause-button"],
      some (StepError.screenshotError screenshot_path))
  else
    ([Effect.goto indexTarget, Effect.click "#start-button",
      Effect.waitTimeout 3000, Effect.click "#pause-button",
      Effect.screenshot screenshot_path page.shotBytes false,
      Effect.closeBrowser,
      Effect.print ("Screenshot saved to " ++ screenshot_path)],
      none)

end VerifyClusters

/-- The process exit code a run produces: 0 when no exception escapes the
script body, nonzero when one propagates to the interpreter. -/
def exitCode : Option StepError → Nat
  | none => 0
  | some _ => 1

/-- File-system state: the bytes stored at each path, `none` if absent. -/
def FileSystem := String → Option (List Nat)

/-- The effect of one trace entry on the file system: a screenshot stores
its bytes at its path, overwriting whatever was there; no other effect
touches the file system. -/
def applyEffect (fs : FileSystem) : Effect → FileSystem
  | Effect.screenshot path bytes _ =>
      fun q => if q = path then some bytes else fs q
  | _ => fs

/-- The file system after a run's whole trace has executed. -/
def applyTrace (fs : FileSystem) (trace : List Effect) : FileSystem :=
  trace.foldl applyEffect fs

/-- The number of trace entries satisfying a predicate. -/
def countP (trace : List Effect) (p : Effect → Bool) : Nat :=
  (trace.filter p).length

def Effect.isClose : Effect → Bool
  | Effect.closeBrowser => true
  | _ => false

def Effect.isGoto : Effect → Bool
  | Effect.goto _ => true
  | _ => false

def Effect.isClick : Effect → Bool
  | Effect.click _ => true
  | _ => false

def Effect.isAssert : Effect → Bool
  | Effect.assertCheck _ => true
  | _ => false

def Effect.isScreenshot : Effect → Bool
  | Effect.screenshot _ _ _ => true
  | _ => false

/-- The screenshot a trace entry performs, if any: its path, its bytes
and its `full_page` flag. -/
def Effect.shot? : Effect → Option (String × List Nat × Bool)
  | Effect.screenshot path bytes fullPage => some (path, bytes, fullPage)
  | _ => none

/-- The selector a trace entry clicks, if any. -/
def Effect.clickSel? : Effect → Option String
  | Effect.click s => some s
  | _ => none

/-- All screenshots a trace performs, in order. -/
def screenshotsOf (trace : List Effect) : List (String × List Nat × Bool) :=
  trace.filterMap Effect.shot?

/-! ### Structural lemmas about log collection and traces -/

theorem foldl_handleEvent (events : List PageEvent) :
    ∀ st : LogState,
      events.foldl handleEvent st =
        ⟨st.console_messages ++ events.filterMap consoleEntry?,
          st.page_errors ++ events.filterMap errorEntry?⟩ := by
  induction events with
  | nil =>
    intro st
    cases st
    simp
  | cons e es ih =>
    intro st
    cases e with
    | console t x =>
      simp only [List.foldl_cons, handleEvent, ih, List.filterMap_cons,
        consoleEntry?, errorEntry?, List.append_assoc, List.singleton_append]
    | pageerror err =>
      simp only [List.foldl_cons, handleEvent, ih, List.filterMap_cons,
        consoleEntry?, errorEntry?, List.append_assoc, List.singleton_append]

theorem collectLogs_eq (events : List PageEvent) :
    collectLogs events =
      ⟨events.filterMap consoleEntry?, events.filterMap errorEntry?⟩ := by
  simpa using foldl_handleEvent events ⟨[], []⟩

theorem countP_append (a b : List Effect) (q : Effect → Bool) :
    countP (a ++ b) q = countP a q + countP b q := by
  simp [countP, List.filter_append]

theorem isClose_eq_true_iff (e : Effect) :
    Effect.isClose e = true ↔ e = Effect.closeBrowser := by
  cases e <;> simp [Effect.isClose]

theorem countP_isClose_eq_zero (l : List Effect)
    (h : Effect.closeBrowser ∉ l) : countP l Effect.isClose = 0 := by
  unfold countP
  rw [List.filter_eq_nil_iff.mpr]
  · rfl
  · intro e he habs
    exact h ((isClose_eq_true_iff e).mp habs ▸ he)

theorem countP_all_print_eq_zero (l : List Effect) (q : Effect → Bool)
    (hall : ∀ e ∈ l, ∃ s, e = Effect.print s)
    (hq : ∀ s, q (Effect.print s) = false) : countP l q = 0 := by
  unfold countP
  rw [List.filter_eq_nil_iff.mpr]
  · rfl
  · intro e he habs
    obtain ⟨s, rfl⟩ := hall e he
    rw [hq s] at habs
    exact Bool.false_ne_true habs

namespace VerifySimulation

theorem consoleSection_all_print (cs : List String) :
    ∀ e ∈ consoleSection cs, ∃ s, e = Effect.print s := by
  intro e he
  unfold consoleSection at he
  rcases List.mem_cons.mp he with h | h
  · exact ⟨_, h⟩
  · by_cases hcs : cs.isEmpty
    · rw [if_pos hcs] at h
      simp only [List.mem_singleton] at h
      exact ⟨_, h⟩
    · rw [if_neg hcs] at h
      obtain ⟨s, _, hs⟩ := List.mem_map.mp h
      exact ⟨s, hs.symm⟩

theorem errorSection_all_print (es : List String) :
    ∀ e ∈ errorSection es, ∃ s, e = Effect.print s := by
  intro e he
  unfold errorSection at he
  rcases List.mem_cons.mp he with h | h
  · exact ⟨_, h⟩
  · by_cases hes : es.isEmpty
    · rw [if_pos hes] at h
      simp only [List.mem_singleton] at h
      exact ⟨_, h⟩
    · rw [if_neg hes] at h
      obtain ⟨s, _, hs⟩ := List.mem_map.mp h
      exact ⟨s, hs.symm⟩

theorem close_not_mem_consoleSection (cs : List String) :
    Effect.closeBrowser ∉ consoleSection cs := by
  intro h
  obtain ⟨s, hs⟩ := consoleSection_all_print cs _ h
  exact Effect.noConfusion hs

theorem close_not_mem_errorSection (es : List String) :
    Effect.closeBrowser ∉ errorSection es := by
  intro h
  obtain ⟨s, hs⟩ := errorSection_all_print es _ h
  exact Effect.noConfusion hs

theorem tryBlock_no_close (p : Page) :
    Effect.closeBrowser ∉ (tryBlock p).1 := by
  unfold tryBlock
  repeat' split
  all_goals simp

theorem tryBlock_goto_mem (p : Page) :
    Effect.goto indexTarget ∈ (tryBlock p).1 := by
  unfold tryBlock
  repeat' split
  all_goals simp

theorem tryBlock_counts (p : Page) :
    countP (tryBlock p).1 Effect.isGoto ≤ 1 ∧
      countP (tryBlock p).1 Effect.isClick ≤ 1 ∧
        countP (tryBlock p).1 Effect.isScreenshot ≤ 1 := by
  unfold tryBlock
  repeat' split
  all_goals refine ⟨?_, ?_, ?_⟩
  all_goals simp [countP, List.filter, Effect.isGoto, Effect.isClick,
    Effect.isScreenshot]

theorem exceptionHandled_eq (p : Page) :
    exceptionHandled p =
      (tryBlock p).1 ++
        (match (tryBlock p).2 with
          | none => []
          | some e =>
              [Effect.print
                ("\nAn error occurred during Playwright execution: " ++
                  e.message)]) := by
  unfold exceptionHandled
  rcases h : tryBlock p with ⟨tr, err⟩
  cases err <;> simp

theorem exceptionHandled_no_close (p : Page) :
    Effect.closeBrowser ∉ exceptionHandled p := by
  rw [exceptionHandled_eq]
  intro h
  rcases List.mem_append.mp h with h | h
  · exact tryBlock_no_close p h
  · rcases htb : (tryBlock p).2 with _ | e
    · rw [htb] at h
      simp at h
    · rw [htb] at h
      simp at h

theorem exceptionHandled_prints_error (p : Page) (e : StepError)
    (h : (tryBlock p).2 = some e) :
    Effect.print
        ("\nAn error occurred during Playwright execution: " ++ e.message) ∈
      exceptionHandled p := by
  rw [exceptionHandled_eq, h]
  simp

theorem exceptionHandled_goto_mem (p : Page) :
    Effect.goto indexTarget ∈ exceptionHandled p := by
  rw [exceptionHandled_eq]
  exact List.mem_append_left _ (tryBlock_goto_mem p)

theorem sim_closes_once (p : Page) :
    countP (run_verification p).1 Effect.isClose = 1 := by
  unfold run_verification
  rw [countP_append, countP_append, countP_append, countP_append]
  rw [countP_isClose_eq_zero _ (by simp),
    countP_isClose_eq_zero _ (exceptionHandled_no_close p),
    countP_isClose_eq_zero _ (close_not_mem_consoleSection _),
    countP_isClose_eq_zero _ (close_not_mem_errorSection _)]
  rfl

end VerifySimulation

namespace VerifyBoundaryConditions

/-- The full trace of a successful boundary-conditions run. -/
theorem boundary_run_success (p : Page) (hg : p.gotoOk = true)
    (hr : p.resolves "#boundary-condition" = true)
    (ho : "top-to-bottom" ∈ p.boundaryOptions)
    (hv : ∃ t, t ≤ defaultAssertTimeout ∧ p.boundaryValue t = "top-to-bottom")
    (hs : p.shotOk = true) :
    run_verification p =
      ([Effect.goto indexTarget, Effect.scrollIntoView "#boundary-condition",
        Effect.selectOption "#boundary-condition" "top-to-bottom",
        Effect.assertCheck valueCheck,
        Effect.screenshot screenshot_path p.shotBytes false,
        Effect.closeBrowser,
        Effect.print ("Screenshot saved to " ++ screenshot_path)],
        none) := by
  unfold run_verification
  rw [if_neg (by simp [hg]), if_neg (by simp [hr]), if_pos ho,
    toHaveValue_ok _ _ _ hv, if_neg (by simp [hs])]

theorem boundary_close_count (p : Page) :
    ((run_verification p).2 = none →
        countP (run_verification p).1 Effect.isClose = 1) ∧
      ((run_verification p).2 ≠ none →
        countP (run_verification p).1 Effect.isClose = 0) := by
  unfold run_verification
  repeat' split
  all_goals constructor
  all_goals intro h
  all_goals first
    | rfl
    | (exfalso; exact h rfl)
    | (exfalso; simp at h)

end VerifyBoundaryConditions

namespace VerifyClusters

/-- The full trace of a successful clusters run. -/
theorem clusters_run_success (p : Page) (hg : p.gotoOk = true)
    (h1 : p.resolves "#start-button" = true)
    (h2 : p.resolves "#pause-button" = true)
    (hs : p.shotOk = true) :
    run_verification p =
      ([Effect.goto indexTarget, Effect.click "#start-button",
        Effect.waitTimeout 3000, Effect.click "#pause-button",
        Effect.screenshot screenshot_path p.shotBytes false,
        Effect.closeBrowser,
        Effect.print ("Screenshot saved to " ++ screenshot_path)],
        none) := by
  unfold run_verification
  rw [if_neg (by simp [hg]), if_neg (by simp [h1]), if_neg (by simp [h2]),
    if_neg (by simp [hs])]

theorem clusters_close_count (p : Page) :
    ((run_verification p).2 = none →
        countP (run_verification p).1 Effect.isClose = 1) ∧
      ((run_verification p).2 ≠ none →
        countP (run_verification p).1 Effect.isClose = 0) := by
  unfold run_verification
  repeat' split
  all_goals constructor
  all_goals intro h
  all_goals first
    | rfl
    | (exfalso; exact h rfl)
    | (exfalso; simp at h)

/-- The clusters run never invokes an `expect` assertion, whatever the
page does. -/
theorem run_no_assert (p : Page) :
    countP (run_verification p).1 Effect.isAssert = 0 := by
  unfold run_verification
  repeat' split
  all_goals simp [countP, List.filter, Effect.isAssert]

/-- The clusters run reads only navigation success, the resolution of its
two button locators, and the screenshot outcome: two pages agreeing there
produce identical runs. -/
theorem run_congr (p q : Page) (hg : p.gotoOk = q.gotoOk)
    (h1 : p.resolves "#start-button" = q.resolves "#start-button")
    (h2 : p.resolves "#pause-button" = q.resolves "#pause-button")
    (hs : p.shotOk = q.shotOk) (hb : p.shotBytes = q.shotBytes) :
    run_verification p = run_verification q := by
  unfold run_verification
  rw [hg, h1, h2, hs, hb]

end VerifyClusters

/-- A page on which navigation fails immediately; all other behavior is
irrelevant to the failure path it exercises. -/
def deadPage : Page :=
  { gotoOk := false, headingVisible := false, resolves := fun _ => false,
    boundaryOptions := [], boundaryValue := fun _ => "",
    lineCount := fun _ => "0", events := [], shotBytes := [], shotOk := false }

/-- A page satisfying every behavioral assumption the three scripts make:
navigation succeeds, the heading is visible, every locator resolves, the
`top-to-bottom` option exists and the select's value reads back as
`top-to-bottom`, the line count has left "0" by tick 100, two console
messages and one page error are emitted, and the screenshot write
succeeds with four PNG-signature bytes. -/
def livePage : Page :=
  { gotoOk := true, headingVisible := true, resolves := fun _ => true,
    boundaryOptions := ["top-to-bottom", "bottom-to-top"],
    boundaryValue := fun _ => "top-to-bottom",
    lineCount := fun t => if t < 100 then "0" else "17",
    events := [PageEvent.console "log" "simulation started",
      PageEvent.pageerror "TypeError: x is undefined",
      PageEvent.console "warning" "slow frame"],
    shotBytes := [137, 80, 78, 71], shotOk := true }

theorem countP_exceptionHandled (p : Page) (q : Effect → Bool)
    (hq : ∀ s, q (Effect.print s) = false) :
    countP (VerifySimulation.exceptionHandled p) q =
      countP (VerifySimulation.tryBlock p).1 q := by
  rw [VerifySimulation.exceptionHandled_eq, countP_append]
  rcases htb : (VerifySimulation.tryBlock p).2 with _ | e
  · simp [countP]
  · simp [countP, List.filter, hq]

theorem run_sim_counts (p : Page) :
    countP (VerifySimulation.run_verification p).1 Effect.isGoto ≤ 1 ∧
      countP (VerifySimulation.run_verification p).1 Effect.isClick ≤ 1 ∧
        countP (VerifySimulation.run_verification p).1 Effect.isScreenshot ≤ 1 := by
  obtain ⟨hgoto, hclick, hshot⟩ := VerifySimulation.tryBlock_counts p
  have hsections : ∀ q : Effect → Bool, (∀ s, q (Effect.print s) = false) →
      countP (VerifySimulation.consoleSection
          (collectLogs p.events).console_messages) q = 0 ∧
        countP (VerifySimulation.errorSection
          (collectLogs p.events).page_errors) q = 0 :=
    fun q hq =>
      ⟨countP_all_print_eq_zero _ q (VerifySimulation.consoleSection_all_print _) hq,
        countP_all_print_eq_zero _ q (VerifySimulation.errorSection_all_print _) hq⟩
  refine ⟨?_, ?_, ?_⟩
  · obtain ⟨hc, he⟩ := hsections Effect.isGoto fun s => rfl
    unfold VerifySimulation.run_verification
    rw [countP_append, countP_append, countP_append, countP_append,
      countP_exceptionHandled p _ fun s => rfl, hc, he]
    have hz : countP [Effect.registerConsoleHandler,
        Effect.registerPageErrorHandler] Effect.isGoto = 0 := rfl
    have hz2 : countP [Effect.closeBrowser] Effect.isGoto = 0 := rfl
    rw [hz, hz2]
    omega
  · obtain ⟨hc, he⟩ := hsections Effect.isClick fun s => rfl
    unfold VerifySimulation.run_verification
    rw [countP_append, countP_append, countP_append, countP_append,
      countP_exceptionHandled p _ fun s => rfl, hc, he]
    have hz : countP [Effect.registerConsoleHandler,
        Effect.registerPageErrorHandler] Effect.isClick = 0 := rfl
    have hz2 : countP [Effect.closeBrowser] Effect.isClick = 0 := rfl
    rw [hz, hz2]
    omega
  · obtain ⟨hc, he⟩ := hsections Effect.isScreenshot fun s => rfl
    unfold VerifySimulation.run_verification
    rw [countP_append, countP_append, countP_append, countP_append,
      countP_exceptionHandled p _ fun s => rfl, hc, he]
    have hz : countP [Effect.registerConsoleHandler,
        Effect.registerPageErrorHandler] Effect.isScreenshot = 0 := rfl
    have hz2 : countP [Effect.closeBrowser] Effect.isScreenshot = 0 := rfl
    rw [hz, hz2]
    omega

/-! ### Claim theorems -/

/-- C1 (corrected): the browser-release discipline the scripts actually
implement.  `verify_simulation.py` closes the browser exactly once on
every exit path (its `finally:` block).  `verify_boundary_conditions.py`
and `verify_clusters.py` close it exactly once when every step succeeds,
but zero times when any step raises: the exception skips the
`browser.close()` statement. -/
theorem browser_close_discipline :
    (∀ p : Page,
        countP (VerifySimulation.run_verification p).1 Effect.isClose = 1) ∧
      (∀ p : Page, (VerifyBoundaryConditions.run_verification p).2 = none →
        countP (VerifyBoundaryConditions.run_verification p).1
          Effect.isClose = 1) ∧
      (∀ p : Page, (VerifyBoundaryConditions.run_verification p).2 ≠ none →
        countP (VerifyBoundaryConditions.run_verification p).1
          Effect.isClose = 0) ∧
      (∀ p : Page, (VerifyClusters.run_verification p).2 = none →
        countP (VerifyClusters.run_verification p).1 Effect.isClose = 1) ∧
      (∀ p : Page, (VerifyClusters.run_verification p).2 ≠ none →
        countP (VerifyClusters.run_verification p).1 Effect.isClose = 0) :=
  ⟨VerifySimulation.sim_closes_once,
    fun p => (VerifyBoundaryConditions.boundary_close_count p).1,
    fun p => (VerifyBoundaryConditions.boundary_close_count p).2,
    fun p => (VerifyClusters.clusters_close_count p).1,
    fun p => (VerifyClusters.clusters_close_count p).2⟩

/-- Witness for C1's theorem at concrete pages: a fully successful page
and a page whose navigation fails. -/
theorem browser_close_discipline_witness :
    countP (VerifySimulation.run_verification livePage).1 Effect.isClose = 1 ∧
      countP (VerifyBoundaryConditions.run_verification livePage).1
          Effect.isClose = 1 ∧
      countP (VerifyBoundaryConditions.run_verification deadPage).1
          Effect.isClose = 0 ∧
      countP (VerifyClusters.run_verification livePage).1 Effect.isClose = 1 ∧
      countP (VerifyClusters.run_verification deadPage).1 Effect.isClose = 0 :=
  ⟨browser_close_discipline.1 livePage,
    browser_close_discipline.2.1 livePage rfl,
    browser_close_discipline.2.2.1 deadPage (by decide),
    browser_close_discipline.2.2.2.1 livePage rfl,
    browser_close_discipline.2.2.2.2 deadPage (by decide)⟩

/-- Counterexample to C1 as stated: on a page whose navigation fails, the
boundary-conditions run propagates the exception and its trace contains
no `browser.close()` at all — the release step runs zero times, not
once. -/
theorem boundary_goto_failure_skips_close :
    (VerifyBoundaryConditions.run_verification deadPage).2 =
        some (StepError.navigationError indexTarget) ∧
      countP (VerifyBoundaryConditions.run_verification deadPage).1
          Effect.isClose = 0 ∧
      Effect.closeBrowser ∉
        (VerifyBoundaryConditions.run_verification deadPage).1 := by
  refine ⟨rfl, rfl, ?_⟩
  decide

/-- C2 (corrected): the catch-log-exit-0 policy holds only in
`verify_simulation.py`.  There, every failure raised after session
acquisition is caught by the top-level `except Exception`, its message is
printed, no exception propagates (so the process exits 0), and no step is
retried: the trace holds at most one navigation, one click and one
screenshot attempt. -/
theorem simulation_catches_all_failures (p : Page) (e : StepError)
    (h : (VerifySimulation.tryBlock p).2 = some e) :
    Effect.print
        ("\nAn error occurred during Playwright execution: " ++ e.message) ∈
      (VerifySimulation.run_verification p).1 ∧
      (VerifySimulation.run_verification p).2 = none ∧
      exitCode (VerifySimulation.run_verification p).2 = 0 ∧
      countP (VerifySimulation.run_verification p).1 Effect.isGoto ≤ 1 ∧
      countP (VerifySimulation.run_verification p).1 Effect.isClick ≤ 1 ∧
      countP (VerifySimulation.run_verification p).1 Effect.isScreenshot ≤ 1 := by
  obtain ⟨h1, h2, h3⟩ := run_sim_counts p
  refine ⟨?_, rfl, rfl, h1, h2, h3⟩
  have hmem := VerifySimulation.exceptionHandled_prints_error p e h
  unfold VerifySimulation.run_verification
  exact List.mem_append_left _ (List.mem_append_left _ (List.mem_append_left _
    (List.mem_append_right _ hmem)))

/-- Witness for C2's theorem: the navigation-failure page. -/
theorem simulation_catches_all_failures_witness :
    Effect.print
        ("\nAn error occurred during Playwright execution: " ++
          (StepError.navigationError indexTarget).message) ∈
      (VerifySimulation.run_verification deadPage).1 ∧
      (VerifySimulation.run_verification deadPage).2 = none ∧
      exitCode (VerifySimulation.run_verification deadPage).2 = 0 ∧
      countP (VerifySimulation.run_verification deadPage).1 Effect.isGoto ≤ 1 ∧
      countP (VerifySimulation.run_verification deadPage).1 Effect.isClick ≤ 1 ∧
      countP (VerifySimulation.run_verification deadPage).1
        Effect.isScreenshot ≤ 1 :=
  simulation_catches_all_failures deadPage
    (StepError.navigationError indexTarget) rfl

/-- Counterexample to C2 as stated: in `verify_clusters.py` a
post-acquisition failure is not caught at any level — the exception
propagates to the interpreter (nonzero exit), and no diagnostic message
for it is printed. -/
theorem clusters_failure_propagates_uncaught :
    (VerifyClusters.run_verification deadPage).2 =
        some (StepError.navigationError indexTarget) ∧
      exitCode (VerifyClusters.run_verification deadPage).2 ≠ 0 ∧
      Effect.print
          ("\nAn error occurred during Playwright execution: " ++
            (StepError.navigationError indexTarget).message) ∉
        (VerifyClusters.run_verification deadPage).1 := by
  decide

/-- C3 (confirmed): `verify_simulation.py` registers both diagnostic
sinks before navigation begins (the two `page.on` registrations head the
trace, and the `goto` comes later), and the captured logs are exactly the
page's events, in emission order, each console message formatted as
`"[level] text"` and each page error as its string form — nothing is
lost or reordered. -/
theorem sinks_registered_before_navigation_and_ordered :
    (∀ p : Page, ∃ rest,
        (VerifySimulation.run_verification p).1 =
          Effect.registerConsoleHandler ::
            Effect.registerPageErrorHandler :: rest ∧
          Effect.goto indexTarget ∈ rest) ∧
      ∀ events : List PageEvent,
        collectLogs events =
          ⟨events.filterMap consoleEntry?, events.filterMap errorEntry?⟩ := by
  constructor
  · intro p
    refine ⟨VerifySimulation.exceptionHandled p ++
        (VerifySimulation.consoleSection
            (collectLogs p.events).console_messages ++
          (VerifySimulation.errorSection
              (collectLogs p.events).page_errors ++
            [Effect.closeBrowser])), ?_, ?_⟩
    · simp [VerifySimulation.run_verification, List.append_assoc]
    · exact List.mem_append_left _ (VerifySimulation.exceptionHandled_goto_mem p)
  · exact collectLogs_eq

/-- C4 (confirmed): on every page — steps 3-5 succeeding or raising —
the simulation run's trace ends with the console-log section (entries, or
the explicit no-messages marker when empty), then the page-error section
(same rule), then `browser.close()`; the close appears nowhere earlier. -/
theorem teardown_prints_logs_then_closes :
    ∀ p : Page, ∃ body,
      (VerifySimulation.run_verification p).1 =
        body ++
          (Effect.print "\n--- Browser Console Logs ---" ::
            (if (collectLogs p.events).console_messages.isEmpty then
              [Effect.print "No console messages were captured."]
            else (collectLogs p.events).console_messages.map Effect.print)) ++
          (Effect.print "\n--- Browser Page Errors ---" ::
            (if (collectLogs p.events).page_errors.isEmpty then
              [Effect.print "No page errors were captured."]
            else (collectLogs p.events).page_errors.map Effect.print)) ++
          [Effect.closeBrowser] ∧
        Effect.closeBrowser ∉ body := by
  intro p
  refine ⟨[Effect.registerConsoleHandler, Effect.registerPageErrorHandler] ++
      VerifySimulation.exceptionHandled p, ?_, ?_⟩
  · simp [VerifySimulation.run_verification, VerifySimulation.consoleSection,
      VerifySimulation.errorSection, List.append_assoc]
  · intro h
    rcases List.mem_append.mp h with h | h
    · simp at h
    · exact VerifySimulation.exceptionHandled_no_close p h

theorem sim_tryBlock_success (p : Page) (hg : p.gotoOk = true)
    (hh : p.headingVisible = true) (hsb : p.resolves "#start-button" = true)
    (hl : ∃ t, t ≤ 5000 ∧ p.lineCount t ≠ "0") (hs : p.shotOk = true) :
    VerifySimulation.tryBlock p =
      ([Effect.goto indexTarget,
        Effect.assertCheck VerifySimulation.headingCheck,
        Effect.click "#start-button",
        Effect.assertCheck VerifySimulation.lineCountCheck,
        Effect.screenshot VerifySimulation.screenshot_path p.shotBytes false,
        Effect.print
          ("Screenshot saved to " ++ VerifySimulation.screenshot_path)],
        none) := by
  unfold VerifySimulation.tryBlock
  rw [if_neg (by simp [hg]), if_neg (by simp [hh]), if_neg (by simp [hsb]),
    notToHaveText_ok _ _ _ hl, if_neg (by simp [hs])]

theorem screenshotsOf_all_print (l : List Effect)
    (hall : ∀ e ∈ l, ∃ s, e = Effect.print s) : screenshotsOf l = [] := by
  unfold screenshotsOf
  rw [List.filterMap_eq_nil_iff.mpr]
  intro e he
  obtain ⟨s, rfl⟩ := hall e he
  rfl

theorem applyTrace_all_print (fs : FileSystem) (l : List Effect)
    (hall : ∀ e ∈ l, ∃ s, e = Effect.print s) : applyTrace fs l = fs := by
  induction l generalizing fs with
  | nil => rfl
  | cons e es ih =>
    obtain ⟨s, rfl⟩ := hall e (List.mem_cons_self e es)
    simpa [applyTrace, applyEffect] using
      ih fs fun x hx => hall x (List.mem_cons_of_mem _ hx)

theorem applyTrace_append (fs : FileSystem) (a b : List Effect) :
    applyTrace fs (a ++ b) = applyTrace (applyTrace fs a) b := by
  simp [applyTrace, List.foldl_append]

/-- C5 (corrected): in both scripts the claim cites, every run that
reaches the capture step takes exactly one screenshot, stored at that
script's fixed path and overwriting whatever bytes the file system held
there — but it is not a full-page screenshot: neither call passes the
`full_page` option, so the flag stays at its default `false`. -/
theorem screenshot_fixed_path_overwrites :
    (∀ p : Page, p.gotoOk = true → p.headingVisible = true →
      p.resolves "#start-button" = true →
      (∃ t, t ≤ 5000 ∧ p.lineCount t ≠ "0") → p.shotOk = true →
        screenshotsOf (VerifySimulation.run_verification p).1 =
          [(VerifySimulation.screenshot_path, p.shotBytes, false)] ∧
        ∀ fs : FileSystem,
          applyTrace fs (VerifySimulation.run_verification p).1
              VerifySimulation.screenshot_path = some p.shotBytes) ∧
      ∀ p : Page, p.gotoOk = true →
        p.resolves "#boundary-condition" = true →
        "top-to-bottom" ∈ p.boundaryOptions →
        (∃ t, t ≤ defaultAssertTimeout ∧
          p.boundaryValue t = "top-to-bottom") →
        p.shotOk = true →
          screenshotsOf (VerifyBoundaryConditions.run_verification p).1 =
            [(VerifyBoundaryConditions.screenshot_path, p.shotBytes,
              false)] ∧
          ∀ fs : FileSystem,
            applyTrace fs (VerifyBoundaryConditions.run_verification p).1
                VerifyBoundaryConditions.screenshot_path =
              some p.shotBytes := by
  constructor
  · intro p hg hh hsb hl hs
    have htb := sim_tryBlock_success p hg hh hsb hl hs
    have heh : VerifySimulation.exceptionHandled p =
        [Effect.goto indexTarget,
          Effect.assertCheck VerifySimulation.headingCheck,
          Effect.click "#start-button",
          Effect.assertCheck VerifySimulation.lineCountCheck,
          Effect.screenshot VerifySimulation.screenshot_path p.shotBytes
            false,
          Effect.print
            ("Screenshot saved to " ++ VerifySimulation.screenshot_path)] := by
      unfold VerifySimulation.exceptionHandled
      rw [htb]
    have hcs := VerifySimulation.consoleSection_all_print
      (collectLogs p.events).console_messages
    have hes := VerifySimulation.errorSection_all_print
      (collectLogs p.events).page_errors
    constructor
    · unfold VerifySimulation.run_verification
      unfold screenshotsOf
      rw [List.filterMap_append, List.filterMap_append, List.filterMap_append,
        List.filterMap_append, heh]
      rw [show (VerifySimulation.consoleSection
          (collectLogs p.events).console_messages).filterMap Effect.shot? = []
        from screenshotsOf_all_print _ hcs]
      rw [show (VerifySimulation.errorSection
          (collectLogs p.events).page_errors).filterMap Effect.shot? = []
        from screenshotsOf_all_print _ hes]
      simp [Effect.shot?]
    · intro fs
      unfold VerifySimulation.run_verification
      rw [applyTrace_append, applyTrace_append, applyTrace_append,
        applyTrace_append, heh]
      rw [applyTrace_all_print _ _ hcs, applyTrace_all_print _ _ hes]
      simp [applyTrace, applyEffect]
  · intro p hg hr ho hv hs
    rw [VerifyBoundaryConditions.boundary_run_success p hg hr ho hv hs]
    constructor
    · simp [screenshotsOf, Effect.shot?]
    · intro fs
      simp [applyTrace, applyEffect]

/-- Witness for C5's theorem: both scripts' capture steps at the fully
live page. -/
theorem screenshot_fixed_path_overwrites_witness :
    (screenshotsOf (VerifySimulation.run_verification livePage).1 =
        [(VerifySimulation.screenshot_path, [137, 80, 78, 71], false)] ∧
      ∀ fs : FileSystem,
        applyTrace fs (VerifySimulation.run_verification livePage).1
            VerifySimulation.screenshot_path = some [137, 80, 78, 71]) ∧
      screenshotsOf (VerifyBoundaryConditions.run_verification livePage).1 =
          [(VerifyBoundaryConditions.screenshot_path, [137, 80, 78, 71],
            false)] ∧
        ∀ fs : FileSystem,
          applyTrace fs
              (VerifyBoundaryConditions.run_verification livePage).1
              VerifyBoundaryConditions.screenshot_path =
            some [137, 80, 78, 71] :=
  ⟨screenshot_fixed_path_overwrites.1 livePage rfl rfl rfl
      ⟨100, by decide, by decide⟩ rfl,
    screenshot_fixed_path_overwrites.2 livePage rfl rfl (by decide)
      ⟨0, by decide, rfl⟩ rfl⟩

/-- Counterexample to C5 as stated: on the live page the only screenshot
in the simulation run's trace and the only screenshot in the
boundary-conditions run's trace each carry `fullPage = false` — viewport
screenshots, not the full-page screenshots the claim asserts. -/
theorem simulation_screenshot_not_fullpage :
    (screenshotsOf (VerifySimulation.run_verification livePage).1 =
        [(VerifySimulation.screenshot_path, [137, 80, 78, 71], false)] ∧
      (VerifySimulation.screenshot_path, [137, 80, 78, 71], true) ∉
        screenshotsOf (VerifySimulation.run_verification livePage).1) ∧
      screenshotsOf (VerifyBoundaryConditions.run_verification livePage).1 =
          [(VerifyBoundaryConditions.screenshot_path, [137, 80, 78, 71],
            false)] ∧
        (VerifyBoundaryConditions.screenshot_path, [137, 80, 78, 71],
            true) ∉
          screenshotsOf
            (VerifyBoundaryConditions.run_verification livePage).1 := by
  decide

/-- C6 (confirmed): running the boundary-conditions script twice in
succession (against pages on which every step succeeds and the engine
produces nonempty PNG bytes) writes a screenshot both times at the same
fixed path; after the first run the file exists with the first run's
bytes (nonempty), and the second run fully overwrites it with the second
run's bytes (nonempty). -/
theorem verification_png_idempotent (fs : FileSystem) (p q : Page)
    (hpg : p.gotoOk = true) (hpr : p.resolves "#boundary-condition" = true)
    (hpo : "top-to-bottom" ∈ p.boundaryOptions)
    (hpv : ∃ t, t ≤ defaultAssertTimeout ∧ p.boundaryValue t = "top-to-bottom")
    (hps : p.shotOk = true) (hpb : p.shotBytes ≠ [])
    (hqg : q.gotoOk = true) (hqr : q.resolves "#boundary-condition" = true)
    (hqo : "top-to-bottom" ∈ q.boundaryOptions)
    (hqv : ∃ t, t ≤ defaultAssertTimeout ∧ q.boundaryValue t = "top-to-bottom")
    (hqs : q.shotOk = true) (hqb : q.shotBytes ≠ []) :
    screenshotsOf (VerifyBoundaryConditions.run_verification p).1 =
        [(VerifyBoundaryConditions.screenshot_path, p.shotBytes, false)] ∧
      screenshotsOf (VerifyBoundaryConditions.run_verification q).1 =
        [(VerifyBoundaryConditions.screenshot_path, q.shotBytes, false)] ∧
      applyTrace fs (VerifyBoundaryConditions.run_verification p).1
          VerifyBoundaryConditions.screenshot_path = some p.shotBytes ∧
      applyTrace fs (VerifyBoundaryConditions.run_verification p).1
          VerifyBoundaryConditions.screenshot_path ≠ some [] ∧
      applyTrace (applyTrace fs (VerifyBoundaryConditions.run_verification p).1)
          (VerifyBoundaryConditions.run_verification q).1
          VerifyBoundaryConditions.screenshot_path = some q.shotBytes ∧
      applyTrace (applyTrace fs (VerifyBoundaryConditions.run_verification p).1)
          (VerifyBoundaryConditions.run_verification q).1
          VerifyBoundaryConditions.screenshot_path ≠ some [] := by
  have hp := VerifyBoundaryConditions.boundary_run_success p hpg hpr hpo hpv hps
  have hq := VerifyBoundaryConditions.boundary_run_success q hqg hqr hqo hqv hqs
  rw [hp, hq]
  have hwrite : ∀ (fs0 : FileSystem) (r : Page),
      applyTrace fs0
          ([Effect.goto indexTarget,
            Effect.scrollIntoView "#boundary-condition",
            Effect.selectOption "#boundary-condition" "top-to-bottom",
            Effect.assertCheck VerifyBoundaryConditions.valueCheck,
            Effect.screenshot VerifyBoundaryConditions.screenshot_path
              r.shotBytes false,
            Effect.closeBrowser,
            Effect.print
              ("Screenshot saved to " ++
                VerifyBoundaryConditions.screenshot_path)],
            (none : Option StepError)).1
          VerifyBoundaryConditions.screenshot_path = some r.shotBytes := by
    intro fs0 r
    simp [applyTrace, applyEffect]
  refine ⟨by simp [screenshotsOf, Effect.shot?],
    by simp [screenshotsOf, Effect.shot?], hwrite fs p, ?_, hwrite _ q, ?_⟩
  · rw [hwrite fs p]
    simp [hpb]
  · rw [hwrite _ q]
    simp [hqb]

/-- Witness for C6's theorem: both runs on the live page over the empty
file system. -/
theorem verification_png_idempotent_witness :
    screenshotsOf (VerifyBoundaryConditions.run_verification livePage).1 =
        [(VerifyBoundaryConditions.screenshot_path, [137, 80, 78, 71],
          false)] ∧
      screenshotsOf (VerifyBoundaryConditions.run_verification livePage).1 =
        [(VerifyBoundaryConditions.screenshot_path, [137, 80, 78, 71],
          false)] ∧
      applyTrace (fun _ => none)
          (VerifyBoundaryConditions.run_verification livePage).1
          VerifyBoundaryConditions.screenshot_path = some [137, 80, 78, 71] ∧
      applyTrace (fun _ => none)
          (VerifyBoundaryConditions.run_verification livePage).1
          VerifyBoundaryConditions.screenshot_path ≠ some [] ∧
      applyTrace
          (applyTrace (fun _ => none)
            (VerifyBoundaryConditions.run_verification livePage).1)
          (VerifyBoundaryConditions.run_verification livePage).1
          VerifyBoundaryConditions.screenshot_path = some [137, 80, 78, 71] ∧
      applyTrace
          (applyTrace (fun _ => none)
            (VerifyBoundaryConditions.run_verification livePage).1)
          (VerifyBoundaryConditions.run_verification livePage).1
          VerifyBoundaryConditions.screenshot_path ≠ some [] :=
  verification_png_idempotent (fun _ => none) livePage livePage
    rfl rfl (by decide) ⟨0, by decide, rfl⟩ rfl (by decide)
    rfl rfl (by decide) ⟨0, by decide, rfl⟩ rfl (by decide)

/-- A live page whose `#line-count` display never leaves `"0"`. -/
def stuckPage : Page :=
  { livePage with lineCount := fun _ => "0" }

/-- A live page whose `#boundary-condition` value never reads back as
`top-to-bottom`. -/
def wrongValuePage : Page :=
  { livePage with boundaryValue := fun _ => "left-to-right" }

/-- C7 (confirmed): an asserted post-condition that never becomes true
within its bounded wait fails with an `AssertionError` carrying the
expected and the observed value — generically for the value-equality
assertion, and concretely in both scripts: the simulation run's
`not_to_have_text("0")` when the line count stays `"0"` for all 5000 ms,
and the boundary run's `to_have_value("top-to-bottom")` when the value
never matches within the default timeout. -/
theorem assertion_timeout_yields_assertion_error :
    (∀ (observed : Nat → String) (expected : String) (timeout : Nat),
        (∀ t, t ≤ timeout → observed t ≠ expected) →
          toHaveValue observed expected timeout =
            Except.error
              (StepError.assertionError expected (observed timeout))) ∧
      (∀ p : Page, p.gotoOk = true → p.headingVisible = true →
        p.resolves "#start-button" = true →
        (∀ t, t ≤ 5000 → p.lineCount t = "0") →
          (VerifySimulation.tryBlock p).2 =
            some (StepError.assertionError "text other than 0" "0")) ∧
      ∀ p : Page, p.gotoOk = true →
        p.resolves "#boundary-condition" = true →
        "top-to-bottom" ∈ p.boundaryOptions →
        (∀ t, t ≤ defaultAssertTimeout →
          p.boundaryValue t ≠ "top-to-bottom") →
          (VerifyBoundaryConditions.run_verification p).2 =
            some (StepError.assertionError "top-to-bottom"
              (p.boundaryValue defaultAssertTimeout)) := by
  refine ⟨toHaveValue_error, ?_, ?_⟩
  · intro p hg hh hsb hnever
    have h5000 : p.lineCount 5000 = "0" := hnever 5000 (Nat.le_refl 5000)
    unfold VerifySimulation.tryBlock
    rw [if_neg (by simp [hg]), if_neg (by simp [hh]), if_neg (by simp [hsb]),
      notToHaveText_error _ _ _ hnever, h5000]
    simp
  · intro p hg hr ho hnever
    unfold VerifyBoundaryConditions.run_verification
    rw [if_neg (by simp [hg]), if_neg (by simp [hr]), if_pos ho,
      toHaveValue_error _ _ _ hnever]

/-- Witness for C7's theorem: a page whose line count stays `"0"` and a
page whose select value stays `"left-to-right"`. -/
theorem assertion_timeout_yields_assertion_error_witness :
    toHaveValue (fun _ => "left-to-right") "top-to-bottom" 5000 =
        Except.error
          (StepError.assertionError "top-to-bottom" "left-to-right") ∧
      (VerifySimulation.tryBlock stuckPage).2 =
        some (StepError.assertionError "text other than 0" "0") ∧
      (VerifyBoundaryConditions.run_verification wrongValuePage).2 =
        some (StepError.assertionError "top-to-bottom" "left-to-right") :=
  ⟨assertion_timeout_yields_assertion_error.1 (fun _ => "left-to-right")
      "top-to-bottom" 5000 (fun t _ => by
        show "left-to-right" ≠ "top-to-bottom"
        decide),
    assertion_timeout_yields_assertion_error.2.1 stuckPage rfl rfl rfl
      (fun t _ => rfl),
    assertion_timeout_yields_assertion_error.2.2 wrongValuePage rfl rfl
      (by decide) (fun t _ => by
        show "left-to-right" ≠ "top-to-bottom"
        decide)⟩

/-- Modelled from the spec: `index.html` is not part of the repository
slice, so the `#line-count` display's behavior is taken from the spec's
target-page contract — the page "must behave such that triggering start
eventually mutates the status display away from its initial value within
the wait timeout".  The display reads `"0"` until `mutationTick` and
`newText` from then on. -/
def modelLineCount (mutationTick : Nat) (newText : String) (t : Nat) :
    String :=
  if t < mutationTick then "0" else newText

/-- Modelled from the spec: a page satisfying the spec's whole
target-page contract, with the status display following
`modelLineCount`. -/
def simContractPage (mutationTick : Nat) (newText : String) : Page :=
  { livePage with lineCount := modelLineCount mutationTick newText }

/-- C8 (confirmed, against the spec-modelled page): with the status
display initialized to `"0"` (any mutation tick `0 < m ≤ 5000` and any
new text `≠ "0"`), clicking start and waiting up to 5000 ms yields a
display value different from `"0"`: the script's
`not_to_have_text("0", timeout=5000)` succeeds, the whole try block
completes without an exception, and the run reaches the screenshot. -/
theorem start_click_mutates_line_count (m : Nat) (s : String)
    (hm0 : 0 < m) (hm : m ≤ 5000) (hs : s ≠ "0") :
    modelLineCount m s 0 = "0" ∧
      (∃ t, t ≤ 5000 ∧ modelLineCount m s t ≠ "0") ∧
      notToHaveText (modelLineCount m s) "0" 5000 = Except.ok () ∧
      (VerifySimulation.tryBlock (simContractPage m s)).2 = none ∧
      (VerifySimulation.screenshot_path, (simContractPage m s).shotBytes,
          false) ∈
        screenshotsOf
          (VerifySimulation.run_verification (simContractPage m s)).1 := by
  have hex : ∃ t, t ≤ 5000 ∧ modelLineCount m s t ≠ "0" :=
    ⟨m, hm, by simp [modelLineCount, hs]⟩
  have htb := sim_tryBlock_success (simContractPage m s) rfl rfl rfl hex rfl
  have heh : VerifySimulation.exceptionHandled (simContractPage m s) =
      (VerifySimulation.tryBlock (simContractPage m s)).1 := by
    unfold VerifySimulation.exceptionHandled
    rw [htb]
  refine ⟨by simp [modelLineCount, hm0], hex, notToHaveText_ok _ _ _ hex,
    by rw [htb], ?_⟩
  refine List.mem_filterMap.mpr
    ⟨Effect.screenshot VerifySimulation.screenshot_path
        (simContractPage m s).shotBytes false, ?_, rfl⟩
  unfold VerifySimulation.run_verification
  refine List.mem_append_left _ (List.mem_append_left _
    (List.mem_append_left _ (List.mem_append_right _ ?_)))
  rw [heh, htb]
  simp

/-- Witness for C8's theorem: mutation at tick 100 to text `"42"`. -/
theorem start_click_mutates_line_count_witness :
    modelLineCount 100 "42" 0 = "0" ∧
      (∃ t, t ≤ 5000 ∧ modelLineCount 100 "42" t ≠ "0") ∧
      notToHaveText (modelLineCount 100 "42") "0" 5000 = Except.ok () ∧
      (VerifySimulation.tryBlock (simContractPage 100 "42")).2 = none ∧
      (VerifySimulation.screenshot_path,
          (simContractPage 100 "42").shotBytes, false) ∈
        screenshotsOf
          (VerifySimulation.run_verification (simContractPage 100 "42")).1 :=
  start_click_mutates_line_count 100 "42" (by decide) (by decide) (by decide)

/-- A live page differing from `livePage` in everything the clusters
script never reads: heading visibility, dropdown options and value, the
line-count display, and the emitted diagnostic events. -/
def variantPage : Page :=
  { livePage with
    headingVisible := false
    boundaryOptions := []
    boundaryValue := fun _ => "x"
    lineCount := fun _ => "999"
    events := [PageEvent.pageerror "ReferenceError: y"] }

/-- C9 (corrected, against the spec-modelled page contract): on every
page whose two button locators resolve (with navigation and the
screenshot write succeeding), the clusters sequence — click start, wait
3000 ms, click pause, screenshot — completes without raising; but the
scenario uses two locators, `#start-button` and `#pause-button`, not
three. -/
theorem clusters_sequence_completes (p : Page) (hg : p.gotoOk = true)
    (h1 : p.resolves "#start-button" = true)
    (h2 : p.resolves "#pause-button" = true) (hs : p.shotOk = true) :
    (VerifyClusters.run_verification p).2 = none ∧
      (VerifyClusters.run_verification p).1.filterMap Effect.clickSel? =
        VerifyClusters.locator_selectors ∧
      Effect.waitTimeout 3000 ∈ (VerifyClusters.run_verification p).1 ∧
      screenshotsOf (VerifyClusters.run_verification p).1 =
        [(VerifyClusters.screenshot_path, p.shotBytes, false)] ∧
      VerifyClusters.locator_selectors.length = 2 := by
  rw [VerifyClusters.clusters_run_success p hg h1 h2 hs]
  refine ⟨rfl, ?_, ?_, ?_, rfl⟩
  · simp [Effect.clickSel?, VerifyClusters.locator_selectors]
  · simp
  · simp [screenshotsOf, Effect.shot?]

/-- Witness for C9's theorem at the live page. -/
theorem clusters_sequence_completes_witness :
    (VerifyClusters.run_verification livePage).2 = none ∧
      (VerifyClusters.run_verification livePage).1.filterMap
          Effect.clickSel? = VerifyClusters.locator_selectors ∧
      Effect.waitTimeout 3000 ∈ (VerifyClusters.run_verification livePage).1 ∧
      screenshotsOf (VerifyClusters.run_verification livePage).1 =
        [(VerifyClusters.screenshot_path, [137, 80, 78, 71], false)] ∧
      VerifyClusters.locator_selectors.length = 2 :=
  clusters_sequence_completes livePage rfl rfl rfl rfl

/-- Counterexample to C9 as stated: the clusters run clicks through
exactly two locators — its locator list has length 2, not 3. -/
theorem clusters_locator_count_not_three :
    (VerifyClusters.run_verification livePage).1.filterMap Effect.clickSel? =
        ["#start-button", "#pause-button"] ∧
      ¬ ((VerifyClusters.run_verification livePage).1.filterMap
          Effect.clickSel?).length = 3 ∧
      VerifyClusters.locator_selectors.length = 2 := by
  decide

/-- C10 (confirmed): the clusters scenario checks no post-condition: no
`expect` assertion is ever invoked on any page; the run's outcome depends
only on navigation, the two button locators and the screenshot write —
pages differing in the line-count display or any other state produce
identical runs — and whenever those resolve, the run completes
successfully. -/
theorem clusters_no_postcondition :
    (∀ p : Page,
        countP (VerifyClusters.run_verification p).1 Effect.isAssert = 0) ∧
      (∀ p q : Page, p.gotoOk = q.gotoOk →
        p.resolves "#start-button" = q.resolves "#start-button" →
        p.resolves "#pause-button" = q.resolves "#pause-button" →
        p.shotOk = q.shotOk → p.shotBytes = q.shotBytes →
          VerifyClusters.run_verification p =
            VerifyClusters.run_verification q) ∧
      ∀ p : Page, p.gotoOk = true → p.resolves "#start-button" = true →
        p.resolves "#pause-button" = true → p.shotOk = true →
          (VerifyClusters.run_verification p).2 = none :=
  ⟨VerifyClusters.run_no_assert, VerifyClusters.run_congr,
    fun p hg h1 h2 hs => by rw [VerifyClusters.clusters_run_success p hg h1 h2 hs]⟩

/-- Witness for C10's theorem: the live page and a page differing in all
the state the script never reads. -/
theorem clusters_no_postcondition_witness :
    countP (VerifyClusters.run_verification livePage).1 Effect.isAssert = 0 ∧
      VerifyClusters.run_verification livePage =
        VerifyClusters.run_verification variantPage ∧
      (VerifyClusters.run_verification livePage).2 = none :=
  ⟨clusters_no_postcondition.1 livePage,
    clusters_no_postcondition.2.1 livePage variantPage rfl rfl rfl rfl rfl,
    clusters_no_postcondition.2.2 livePage rfl rfl rfl rfl⟩
